import Mathlib

/-!
Verification of the GKE metrics-exporter pipeline
(`gke-vpa-recommendations/metrics-exporter/main.py`).

The Python program is embedded shallowly:

* protobuf label maps (`result.resource.labels`, `result.metric.labels`,
  `result.metadata.system_labels.fields`) become association lists with the
  protobuf accessor semantics of returning the default `""` on a missing key;
* `datetime` values become a record of calendar components and `strftime`
  becomes component formatting with zero padding;
* point values (`point.value.double_value` / `point.value.int64_value`)
  become a record with a rational double field and an integer field, both
  defaulting to `0` as protobuf accessors do;
* the monitoring backend is a parameter: a call either fails outright or
  yields a list of series followed by an optional error raised while the
  result pager is being iterated (`CallResult`);
* the BigQuery client is a parameter returning the per-row error list;
* Python exceptions become `Except`, the broad `try`/`except` blocks become
  total functions returning what the handler path returns.
-/

namespace MetricsExporter

/-- Python `leadMatch`: does `pat` occur at the head of `l`? Helper for the
substring test used by `"hpa" in metric_name`. -/
def leadMatch : List Char → List Char → Bool
  | [], _ => true
  | _ :: _, [] => false
  | p :: ps, c :: cs => p == c && leadMatch ps cs

/-- Does `pat` occur somewhere in `l`? -/
def hasSubAux (pat : List Char) : List Char → Bool
  | [] => leadMatch pat []
  | c :: cs => leadMatch pat (c :: cs) || hasSubAux pat cs

/-- Python's substring containment `pat in s` (case-sensitive, any
position). -/
def strHasSub (s pat : String) : Bool :=
  hasSubAux pat.toList s.toList

/-- Python `s.lower()` (restricted to the ASCII fold `Char.toLower`,
which covers the metric names at issue). -/
def strToLower (s : String) : String :=
  String.mk (s.toList.map Char.toLower)

/-- A protobuf string map: association list, missing keys read as `""`
(mirrors protobuf map accessor semantics in Python, where `m['missing']`
yields the default value rather than raising). -/
abbrev LabelBag : Type := List (String × String)

/-- Lookup in a label bag with protobuf default `""`. -/
def lookupLabel (bag : LabelBag) (k : String) : String :=
  match List.find? (fun p => p.1 == k) bag with
  | some p => p.2
  | none => ""

/-- The values stored in a bag (used to state which bag a row field could
have come from). -/
def bagValues (bag : LabelBag) : List String :=
  List.map Prod.snd bag

/-- A Python `datetime` as its calendar components; `strftime` only reads
components, so this is all the embedding needs. -/
structure DateTime where
  year : Nat
  month : Nat
  day : Nat
  hour : Nat
  minute : Nat
  second : Nat
  microsecond : Nat
  deriving DecidableEq, Repr

/-- Zero-pad a numeral to `width` digits, as `strftime` does. -/
def padNum (width : Nat) (n : Nat) : String :=
  let s := toString n
  String.mk (List.replicate (width - s.length) '0') ++ s

/-- `t.strftime('%Y-%m-%d %H:%M:%S.%f')` — the sub-second point-timestamp
rendering of the source. -/
def fmtSubSecond (t : DateTime) : String :=
  padNum 4 t.year ++ "-" ++ padNum 2 t.month ++ "-" ++ padNum 2 t.day ++ " " ++
    padNum 2 t.hour ++ ":" ++ padNum 2 t.minute ++ ":" ++ padNum 2 t.second ++
    "." ++ padNum 6 t.microsecond

/-- `t.strftime('%Y-%m-%d %H:%M:%S')` — the whole-second `run_date`
rendering of the source. -/
def fmtSecond (t : DateTime) : String :=
  padNum 4 t.year ++ "-" ++ padNum 2 t.month ++ "-" ++ padNum 2 t.day ++ " " ++
    padNum 2 t.hour ++ ":" ++ padNum 2 t.minute ++ ":" ++ padNum 2 t.second

/-- `point.value`: protobuf `TypedValue` as seen through the two accessors
the source reads. A missing oneof member reads as its default (`0.0` / `0`),
exactly as in Python. Doubles are modelled as rationals (the source performs
no arithmetic on them, only the `or` truthiness test). -/
structure PointValue where
  double_value : ℚ
  int64_value : ℤ
  deriving DecidableEq, Repr

/-- `point.interval`: only `start_time` is read by the source. -/
structure PointInterval where
  start_time : DateTime
  deriving DecidableEq, Repr

/-- One point of a series. -/
structure Point where
  interval : PointInterval
  value : PointValue
  deriving DecidableEq, Repr

/-- One `TimeSeries` result as the source reads it: its three label bags and
its ordered points.  `metadataLabels` holds the `string_value` of each
`metadata.system_labels.fields` entry. -/
structure TimeSeries where
  resourceLabels : LabelBag
  metricLabels : LabelBag
  metadataLabels : LabelBag
  points : List Point
  deriving DecidableEq, Repr

/-- One entry of a row's `points_array`. -/
structure PointEntry where
  metric_timestamp : String
  metric_value : ℚ
  deriving DecidableEq, Repr

/-- A Canonical Row as built by `get_gke_metrics`. -/
structure Row where
  run_date : String
  metric_name : String
  project_id : String
  location : String
  cluster_name : String
  namespace_name : String
  controller_name : String
  controller_type : String
  container_name : String
  points_array : List PointEntry
  deriving DecidableEq, Repr

/-- Python `a or b` on the double field: the double value when truthy
(non-zero), else the fallback.  `-0.0` and `0.0` are both falsy, and both
are the rational `0`. -/
def pyOrValue (a b : ℚ) : ℚ :=
  if a = 0 then b else a

/-- `point.value.double_value or float(point.value.int64_value)` — the
metric-value extraction of the source. -/
def extractValue (v : PointValue) : ℚ :=
  pyOrValue v.double_value ((v.int64_value : ℚ))

/-- The `points_array` entry built for one point in the inner loop of
`get_gke_metrics`. -/
def pointEntry (point : Point) : PointEntry :=
  { metric_timestamp := fmtSubSecond point.interval.start_time
    metric_value := extractValue point.value }

/-- The body of the `for result in results` loop of `get_gke_metrics`:
classify the metric name, pick the controller identity fields from the
selected bag, and assemble the row with its embedded point array (the
point array is accumulated by appending, as the Python loop does). -/
def buildRow (run_date : DateTime) (metric_name : String) (result : TimeSeries) :
    Row :=
  let label := result.resourceLabels
  let metadata := result.metadataLabels
  let metric_label := result.metricLabels
  let ids :=
    if strHasSub metric_name "hpa" then
      (lookupLabel metric_label "targetref_name",
        lookupLabel metric_label "targetref_kind",
        lookupLabel metric_label "container_name")
    else if strHasSub metric_name "vpa" then
      (lookupLabel label "controller_name",
        lookupLabel label "controller_kind",
        lookupLabel metric_label "container_name")
    else
      (lookupLabel metadata "top_level_controller_name",
        lookupLabel metadata "top_level_controller_type",
        lookupLabel label "container_name")
  { run_date := fmtSecond run_date
    metric_name := metric_name
    project_id := lookupLabel label "project_id"
    location := lookupLabel label "location"
    cluster_name := lookupLabel label "cluster_name"
    namespace_name := lookupLabel label "namespace_name"
    controller_name := ids.1
    controller_type := ids.2.1
    container_name := ids.2.2
    points_array :=
      result.points.foldl (fun points point => points ++ [pointEntry point]) [] }

/-- The controller-identity triple of a row, in source order
(controller_name, controller_type, container_name). -/
def controllerTriple (r : Row) : String × String × String :=
  (r.controller_name, r.controller_type, r.container_name)

/-- The identity triple the HPA branch reads (all from metric labels). -/
def hpaTriple (s : TimeSeries) : String × String × String :=
  (lookupLabel s.metricLabels "targetref_name",
    lookupLabel s.metricLabels "targetref_kind",
    lookupLabel s.metricLabels "container_name")

/-- The identity triple the VPA branch reads (controller pair from resource
labels, container from metric labels). -/
def vpaTriple (s : TimeSeries) : String × String × String :=
  (lookupLabel s.resourceLabels "controller_name",
    lookupLabel s.resourceLabels "controller_kind",
    lookupLabel s.metricLabels "container_name")

/-- The identity triple the generic branch reads (controller pair from
metadata, container from resource labels). -/
def genericTriple (s : TimeSeries) : String × String × String :=
  (lookupLabel s.metadataLabels "top_level_controller_name",
    lookupLabel s.metadataLabels "top_level_controller_type",
    lookupLabel s.resourceLabels "container_name")

/-- One behaviour of a `list_time_series` call, as observable through the
`try` block that wraps it: either the call itself raises (`failOnCall`), or
the pager yields a list of series and then optionally raises partway through
iteration, after the listed series have been processed (`yields`). Errors
carry their message string.  `yields pre none` is a fully successful call. -/
inductive CallResult (α : Type) where
  | failOnCall (err : String)
  | yields (pre : List α) (err : Option String)
  deriving DecidableEq, Repr

/-- The query descriptor of the Query Catalog (one `config.MQL_QUERY`
value), as read by `get_gke_metrics`. -/
structure QueryDescriptor where
  metric : String
  window : Nat
  seconds_between_points : Nat
  per_series_aligner : String
  cross_series_reducer : String
  columns : List String
  deriving DecidableEq, Repr

/-- The filter f-string of `get_gke_metrics`:
`f'metric.type = "{query.metric}" AND resource.label.namespace_name = {namespace}'`.
Note the metric type is wrapped in double quotes while the namespace is
interpolated bare. -/
def buildFilter (query : QueryDescriptor) (nspace : String) : String :=
  "metric.type = \"" ++ query.metric ++
    "\" AND resource.label.namespace_name = " ++ nspace

/-- `get_gke_metrics`: issue the query (whose behaviour is the `fetch`
parameter, keyed by the filter string actually sent), accumulate one row
per yielded series inside the `try` block, and on any error — either the
call raising or the pager raising partway — fall to the `except` handlers,
which log and leave `rows` as accumulated; the function then returns
`rows`.  It never raises. -/
def get_gke_metrics (run_date : DateTime) (metric_name : String)
    (query : QueryDescriptor) (nspace : String)
    (fetch : String → CallResult TimeSeries) : List Row :=
  match fetch (buildFilter query nspace) with
  | .failOnCall _ => []
  | .yields pre _ =>
      pre.foldl (fun rows result => rows ++ [buildRow run_date metric_name result]) []

/-- `write_to_bigquery`: one `insert_rows_json` call; if the returned error
list is empty, report success (the count written); otherwise raise an
`Exception` whose message embeds the backend's error list. -/
def write_to_bigquery (insert_rows_json : List Row → List String)
    (rows_to_insert : List Row) : Except String Nat :=
  let errors := insert_rows_json rows_to_insert
  if errors = [] then
    .ok rows_to_insert.length
  else
    .error ("Encountered errors while inserting rows: " ++ toString errors)

/-- `run_pipeline` for one namespace: walk the catalog in order; fetch the
metric's rows; when the list is non-empty, sink it (recording the batch);
a sink error propagates and aborts the remaining metrics of this
namespace; an empty list is skipped.  Returns the outcome together with
the list of batches actually handed to the sink, in order — each recorded
batch corresponds to exactly one insertion call. -/
def run_pipeline (run_date : DateTime)
    (fetch : String → String → CallResult TimeSeries)
    (insert_rows_json : List Row → List String) (nspace : String) :
    List (String × QueryDescriptor) → Except String Unit × List (List Row)
  | [] => (.ok (), [])
  | (metric, query) :: rest =>
      let rows_to_insert := get_gke_metrics run_date metric query nspace (fetch metric)
      if rows_to_insert.isEmpty then
        run_pipeline run_date fetch insert_rows_json nspace rest
      else
        match write_to_bigquery insert_rows_json rows_to_insert with
        | .ok _ =>
            let next := run_pipeline run_date fetch insert_rows_json nspace rest
            (next.1, rows_to_insert :: next.2)
        | .error e => (.error e, [rows_to_insert])

/-- `get_namespaces`: `namespaces = set()` is initialised before the `try`
block; the discovery query's series are iterated inside it, adding each
series' `namespace_name` resource label to the set; both `except` handlers
log and fall through to `return list(namespaces)`.  The set is modelled as
a deduplicating fold into a list. -/
def get_namespaces (discovery : CallResult TimeSeries) : List String :=
  match discovery with
  | .failOnCall _ => []
  | .yields pre _ =>
      pre.foldl
        (fun namespaces result =>
          let n := lookupLabel result.resourceLabels "namespace_name"
          if n ∈ namespaces then namespaces else namespaces ++ [n]) []

/-- The `__main__` driver loop: `asyncio.run(run_pipeline(namespace))` for
each discovered namespace in order.  An exception escaping `run_pipeline`
is not caught here, so it terminates the whole loop.  Returns the outcome
and, per namespace actually run, its sink-batch trace. -/
def main_loop (run_date : DateTime)
    (catalog : List (String × QueryDescriptor))
    (fetch : String → String → String → CallResult TimeSeries)
    (insert_rows_json : List Row → List String) :
    List String → Except String Unit × List (String × List (List Row))
  | [] => (.ok (), [])
  | nspace :: rest =>
      match run_pipeline run_date (fetch nspace) insert_rows_json nspace catalog with
      | (.ok _, batches) =>
          let next := main_loop run_date catalog fetch insert_rows_json rest
          (next.1, (nspace, batches) :: next.2)
      | (.error e, batches) => (.error e, [(nspace, batches)])

/-- The `__main__` entry: discover namespaces; when the list is non-empty
run the pipeline over each namespace, otherwise log the empty-set error and
end the job cleanly. -/
def main_program (run_date : DateTime)
    (catalog : List (String × QueryDescriptor))
    (discovery : CallResult TimeSeries)
    (fetch : String → String → String → CallResult TimeSeries)
    (insert_rows_json : List Row → List String) :
    Except String Unit × List (String × List (List Row)) :=
  let monitor_namespaces := get_namespaces discovery
  if monitor_namespaces.length > 0 then
    main_loop run_date catalog fetch insert_rows_json monitor_namespaces
  else
    (.ok (), [])

/-- Follows the spec's wording (§3 invariant, claim C2), not the source:
the three controller identity fields of a row are all populated from
exactly one label-bag source of the series — all three values occur in the
metric-label bag, or all three in the resource-label bag, or all three in
the metadata bag. -/
def singleBagSourced (s : TimeSeries) (r : Row) : Prop :=
  (r.controller_name ∈ bagValues s.metricLabels ∧
      r.controller_type ∈ bagValues s.metricLabels ∧
      r.container_name ∈ bagValues s.metricLabels) ∨
  (r.controller_name ∈ bagValues s.resourceLabels ∧
      r.controller_type ∈ bagValues s.resourceLabels ∧
      r.container_name ∈ bagValues s.resourceLabels) ∨
  (r.controller_name ∈ bagValues s.metadataLabels ∧
      r.controller_type ∈ bagValues s.metadataLabels ∧
      r.container_name ∈ bagValues s.metadataLabels)

/-- A concrete example run date. -/
def rdEx : DateTime := ⟨2026, 10, 12, 1, 2, 3, 0⟩

/-- A concrete example series whose three label bags carry pairwise
distinct values, so that the bag a row field was read from is observable. -/
def sEx : TimeSeries :=
  { resourceLabels := [("project_id", "p"), ("location", "l"),
      ("cluster_name", "c"), ("namespace_name", "ns"),
      ("controller_name", "rn"), ("controller_kind", "rk"),
      ("container_name", "rc")]
    metricLabels := [("container_name", "mc"), ("targetref_name", "mt"),
      ("targetref_kind", "mk")]
    metadataLabels := [("top_level_controller_name", "dn"),
      ("top_level_controller_type", "dt")]
    points := [⟨⟨⟨2026, 10, 12, 1, 0, 0, 250000⟩⟩, ⟨0, 5⟩⟩] }

/-- A concrete example query descriptor. -/
def qEx : QueryDescriptor :=
  ⟨"kubernetes.io/autoscaler/container/memory/per_replica_recommended_request_bytes",
    3600, 60, "ALIGN_MEAN", "REDUCE_SUM", ["resource.container_name"]⟩

/-- A one-entry example catalog whose metric name classifies as VPA. -/
def catEx : List (String × QueryDescriptor) := [("cpu_vpa_recommendation", qEx)]

/-! ### Helper lemmas -/

/-- Appending-fold accumulation (the Python `list.append` loop) is `map`. -/
theorem foldl_append_eq_map {α β : Type} (f : α → β) (l : List α)
    (acc : List β) :
    l.foldl (fun r a => r ++ [f a]) acc = acc ++ l.map f := by
  induction l generalizing acc with
  | nil => simp
  | cons a l ih => simp [ih]

/-- The controller identity triple of a built row is decided by the
`hpa`/`vpa` substring test, in source order. -/
theorem controllerTriple_buildRow (rd : DateTime) (name : String)
    (s : TimeSeries) :
    controllerTriple (buildRow rd name s) =
      if strHasSub name "hpa" then hpaTriple s
      else if strHasSub name "vpa" then vpaTriple s
      else genericTriple s := by
  unfold controllerTriple buildRow hpaTriple vpaTriple genericTriple
  by_cases h1 : strHasSub name "hpa" <;>
    by_cases h2 : strHasSub name "vpa" <;> simp [h1, h2]

/-! ### C1 — ordered, mutually exclusive label-source classification -/

/-- C1: for every series, `get_gke_metrics` picks the controller identity
fields by inspecting the metric name in a fixed order with exactly one
branch applying: a name containing `"hpa"` reads `targetref_name`,
`targetref_kind` and `container_name` from the metric labels; otherwise a
name containing `"vpa"` reads `controller_name` and `controller_kind` from
the resource labels and `container_name` from the metric labels; otherwise
the fields come from the metadata `top_level_controller_name` /
`top_level_controller_type` and the resource label `container_name`. -/
theorem spec_c1_branch_selection (rd : DateTime) (name : String)
    (s : TimeSeries) :
    (strHasSub name "hpa" = true →
      controllerTriple (buildRow rd name s) = hpaTriple s) ∧
    (strHasSub name "hpa" = false → strHasSub name "vpa" = true →
      controllerTriple (buildRow rd name s) = vpaTriple s) ∧
    (strHasSub name "hpa" = false → strHasSub name "vpa" = false →
      controllerTriple (buildRow rd name s) = genericTriple s) ∧
    List.count true
        [strHasSub name "hpa",
          !strHasSub name "hpa" && strHasSub name "vpa",
          !strHasSub name "hpa" && !strHasSub name "vpa"] = 1 := by
  refine ⟨fun h1 => ?_, fun h1 h2 => ?_, fun h1 h2 => ?_, ?_⟩
  · rw [controllerTriple_buildRow]; simp [h1]
  · rw [controllerTriple_buildRow]; simp [h1, h2]
  · rw [controllerTriple_buildRow]; simp [h1, h2]
  · cases h1 : strHasSub name "hpa" <;> cases h2 : strHasSub name "vpa" <;>
      simp [h1, h2, List.count_cons]

/-- C1 witness: a concrete HPA-named metric takes the first branch. -/
theorem spec_c1_branch_selection_witness :
    controllerTriple (buildRow rdEx "memory_hpa_utilization" sEx) =
      hpaTriple sEx :=
  (spec_c1_branch_selection rdEx "memory_hpa_utilization" sEx).1 (by decide)

/-! ### C2 — single label-bag sourcing -/

/-- C2 counterexample: for a VPA-classified metric the built row takes
`controller_name`/`controller_type` from the resource labels but
`container_name` from the metric labels, so with pairwise distinct bag
values no single bag accounts for all three fields — the row mixes
sources, refuting the never-a-mix claim. -/
theorem spec_c2_counterexample :
    ¬ singleBagSourced sEx (buildRow rdEx "cpu_vpa_recommendation" sEx) := by
  unfold singleBagSourced
  decide

/-- C2 amended: the controller identity triple always equals one of the
three designated per-branch picks — the HPA pick (all three fields from
the metric-label bag), the VPA pick (the `controller_name`/`controller_type`
pair from the resource-label bag, `container_name` from the metric-label
bag), or the generic pick (the pair from the metadata bag, `container_name`
from the resource-label bag).  The pair is always drawn from a single bag
chosen deterministically by the classification, but `container_name` may
come from a different bag, so the three fields of one row may span two
bag sources. -/
theorem spec_c2_amended (rd : DateTime) (name : String) (s : TimeSeries) :
    controllerTriple (buildRow rd name s) = hpaTriple s ∨
    controllerTriple (buildRow rd name s) = vpaTriple s ∨
    controllerTriple (buildRow rd name s) = genericTriple s := by
  rw [controllerTriple_buildRow]
  by_cases h1 : strHasSub name "hpa" <;>
    by_cases h2 : strHasSub name "vpa" <;> simp [h1, h2]

/-! ### C3 — the "hpa" match is positional but case-sensitive -/

/-- C3 counterexample: the metric name `"xHPAy"` contains `"hpa"` up to
case, yet the built row's identity triple is the generic (metadata) pick,
not the metric-label pick — the Python `in` test is case-sensitive, so the
claimed case-insensitivity fails. -/
theorem spec_c3_counterexample :
    strHasSub (strToLower "xHPAy") "hpa" = true ∧
    strHasSub "xHPAy" "hpa" = false ∧
    controllerTriple (buildRow rdEx "xHPAy" sEx) = genericTriple sEx ∧
    controllerTriple (buildRow rdEx "xHPAy" sEx) ≠ hpaTriple sEx := by
  refine ⟨by decide, by decide, ?_, ?_⟩
  · rw [controllerTriple_buildRow]; decide
  · rw [controllerTriple_buildRow]; decide

/-- C3 amended: for every metric name containing the lowercase substring
`"hpa"` at any position (the match is case-sensitive), the HPA branch is
selected, the identity triple is read entirely from the metric-label bag,
and it depends on no other bag: any series with the same metric labels
yields the same triple. -/
theorem spec_c3_amended (rd : DateTime) (name : String) (s : TimeSeries)
    (h : strHasSub name "hpa" = true) :
    controllerTriple (buildRow rd name s) = hpaTriple s ∧
    ∀ s' : TimeSeries, s'.metricLabels = s.metricLabels →
      controllerTriple (buildRow rd name s') =
        controllerTriple (buildRow rd name s) := by
  constructor
  · rw [controllerTriple_buildRow]; simp [h]
  · intro s' hs
    rw [controllerTriple_buildRow, controllerTriple_buildRow]
    simp [h, hpaTriple, hs]

/-- C3 amended witness: a name with `"hpa"` mid-string takes the HPA
branch, independent of the series' resource and metadata bags. -/
theorem spec_c3_amended_witness :
    controllerTriple (buildRow rdEx "x_hpa_y" sEx) = hpaTriple sEx :=
  (spec_c3_amended rdEx "x_hpa_y" sEx (by decide)).1

/-! ### C4 — double-or-int value fallback -/

/-- C4: the extracted metric value is the point's double value when that
value is non-zero-equivalent, and otherwise the point's integer value
coerced to a (rational-modelled) float; in particular a double value of
exactly `0.0` falls through to the integer field. -/
theorem spec_c4_value_fallback (v : PointValue) :
    (v.double_value ≠ 0 → extractValue v = v.double_value) ∧
    (v.double_value = 0 → extractValue v = ((v.int64_value : ℚ))) := by
  unfold extractValue pyOrValue
  constructor <;> intro h <;> simp [h]

/-- C4 witness: a double value of exactly `0` falls through to the
integer field `5`. -/
theorem spec_c4_value_fallback_witness :
    extractValue ⟨0, 5⟩ = (((5 : ℤ) : ℚ)) :=
  (spec_c4_value_fallback ⟨0, 5⟩).2 rfl

/-! ### C5 — point-array round trip -/

/-- C5: the row built from a series with N points has a `points_array`
with exactly N entries, in series order, each entry carrying the point
interval's start time rendered with sub-second precision and the
double-or-int fallback value. -/
theorem spec_c5_points_roundtrip (rd : DateTime) (name : String)
    (s : TimeSeries) :
    (buildRow rd name s).points_array =
      s.points.map (fun point =>
        { metric_timestamp := fmtSubSecond point.interval.start_time
          metric_value := extractValue point.value }) ∧
    (buildRow rd name s).points_array.length = s.points.length := by
  have h : (buildRow rd name s).points_array = s.points.map pointEntry := by
    unfold buildRow
    by_cases h1 : strHasSub name "hpa" <;>
      by_cases h2 : strHasSub name "vpa" <;>
      simp [h1, h2, foldl_append_eq_map]
  refine ⟨?_, ?_⟩
  · rw [h]; rfl
  · rw [h]; simp

/-! ### C6 — discovery error handling -/

/-- C6 counterexample: when the backend yields one series (namespace
`"ns"`) and then raises partway through iteration, `get_namespaces`
returns the already-accumulated `["ns"]`, not the empty set claimed. -/
theorem spec_c6_counterexample :
    get_namespaces (.yields [sEx] (some "transport error")) = ["ns"] ∧
    get_namespaces (.yields [sEx] (some "transport error")) ≠ [] := by
  refine ⟨by decide, by decide⟩

/-- C6 amended: `get_namespaces` never propagates an error; on a failing
call it returns the empty set, and on an error raised partway through
iteration it returns exactly the namespaces accumulated from the series
yielded before the error — the same set a fully successful call over
those series would return (empty only when no series preceded the
error). -/
theorem spec_c6_amended (e : String) (pre : List TimeSeries) :
    get_namespaces (.failOnCall e) = [] ∧
    get_namespaces (.yields pre (some e)) =
      get_namespaces (.yields pre none) ∧
    ∀ n : String, n ∈ get_namespaces (.yields pre (some e)) ↔
      n ∈ pre.map (fun s => lookupLabel s.resourceLabels "namespace_name") := by
  refine ⟨rfl, rfl, fun n => ?_⟩
  show n ∈ pre.foldl _ [] ↔ _
  have key : ∀ (l : List TimeSeries) (acc : List String),
      n ∈ l.foldl (fun namespaces result =>
        let m := lookupLabel result.resourceLabels "namespace_name"
        if m ∈ namespaces then namespaces else namespaces ++ [m]) acc ↔
      n ∈ acc ∨
        n ∈ l.map (fun s => lookupLabel s.resourceLabels "namespace_name") := by
    intro l
    induction l with
    | nil => simp
    | cons s l ih =>
        intro acc
        by_cases hm :
            lookupLabel s.resourceLabels "namespace_name" ∈ acc
        · simp only [List.foldl_cons, List.map_cons, List.mem_cons, ih, hm,
            if_true]
          constructor
          · rintro (h | h)
            · exact Or.inl h
            · exact Or.inr (Or.inr h)
          · rintro (h | h | h)
            · exact Or.inl h
            · exact Or.inl (h ▸ hm)
            · exact Or.inr h
        · simp only [List.foldl_cons, List.map_cons, List.mem_cons, ih, hm,
            if_false, List.mem_append, List.mem_singleton]
          tauto
  rw [key]
  simp

/-! ### C7 — fetch error handling -/

/-- C7: `get_gke_metrics` never raises (it is total); when the backend
call itself fails it returns the empty list, and when the backend yields
some series and then raises during iteration it returns exactly the rows
already accumulated from the yielded series — one built row per series,
in order, whether or not an error followed. -/
theorem spec_c7_fetch_error_isolation (rd : DateTime) (name : String)
    (query : QueryDescriptor) (nspace : String)
    (fetch : String → CallResult TimeSeries) :
    (∀ e, fetch (buildFilter query nspace) = .failOnCall e →
      get_gke_metrics rd name query nspace fetch = []) ∧
    (∀ pre merr, fetch (buildFilter query nspace) = .yields pre merr →
      get_gke_metrics rd name query nspace fetch =
        pre.map (buildRow rd name)) := by
  constructor
  · intro e h
    unfold get_gke_metrics
    rw [h]
  · intro pre merr h
    unfold get_gke_metrics
    rw [h]
    simpa using foldl_append_eq_map (buildRow rd name) pre []

/-- C7 witness: a backend that yields one series and then raises still
produces the one accumulated row. -/
theorem spec_c7_fetch_error_isolation_witness :
    get_gke_metrics rdEx "cpu_vpa_recommendation" qEx "ns"
      (fun _ => .yields [sEx] (some "quota exceeded")) =
      [buildRow rdEx "cpu_vpa_recommendation" sEx] := by
  have h := (spec_c7_fetch_error_isolation rdEx "cpu_vpa_recommendation" qEx
    "ns" (fun _ => .yields [sEx] (some "quota exceeded"))).2
    [sEx] (some "quota exceeded") rfl
  simpa using h

/-! ### C8 — sink error semantics -/

/-- C8 counterexample: with a catalog of one metric, two discovered
namespaces and a backend whose insertion always reports a non-empty
per-row error list, the sink error raised while processing `"ns1"`
escapes the uncaught `asyncio.run` call in the `__main__` loop, so
`"ns2"` is never processed — refuting the claim that runs over other
namespaces proceed unaffected. -/
theorem spec_c8_counterexample :
    (main_loop rdEx catEx (fun _ _ _ => .yields [sEx] none)
        (fun _ => ["row error"]) ["ns1", "ns2"]).1 =
      .error "Encountered errors while inserting rows: [row error]" ∧
    (main_loop rdEx catEx (fun _ _ _ => .yields [sEx] none)
        (fun _ => ["row error"]) ["ns1", "ns2"]).2 =
      [("ns1", [[buildRow rdEx "cpu_vpa_recommendation" sEx]])] :=
  ⟨rfl, rfl⟩

/-- C8 amended: for a non-empty batch, `write_to_bigquery` performs its
single insertion call and raises a hard error embedding the backend's
error detail exactly when the reported per-row error list is non-empty
(reporting the count written otherwise); inside `run_pipeline` that error
aborts the remaining metrics of the current namespace — the namespace's
trace records exactly the one failing batch, whatever metrics remain.
(A `run_pipeline` invocation over another namespace is an independent
computation, but in the program's own `__main__` loop the uncaught error
also stops the namespaces queued after the failing one.) -/
theorem spec_c8_amended (insert_rows_json : List Row → List String)
    (rows : List Row) (hrows : rows ≠ []) :
    (insert_rows_json rows = [] →
      write_to_bigquery insert_rows_json rows = .ok rows.length) ∧
    (insert_rows_json rows ≠ [] →
      write_to_bigquery insert_rows_json rows =
        .error ("Encountered errors while inserting rows: " ++
          toString (insert_rows_json rows))) ∧
    (∀ (rd : DateTime) (fetch : String → String → CallResult TimeSeries)
        (nspace metric : String) (query : QueryDescriptor)
        (rest : List (String × QueryDescriptor)),
      get_gke_metrics rd metric query nspace (fetch metric) = rows →
      insert_rows_json rows ≠ [] →
      run_pipeline rd fetch insert_rows_json nspace
          ((metric, query) :: rest) =
        (.error ("Encountered errors while inserting rows: " ++
          toString (insert_rows_json rows)), [rows])) := by
  refine ⟨fun h => ?_, fun h => ?_, fun rd fetch nspace metric query rest hf h => ?_⟩
  · unfold write_to_bigquery
    simp [h]
  · unfold write_to_bigquery
    simp [h]
  · unfold run_pipeline
    rw [hf]
    have hempty : rows.isEmpty = false := by
      cases rows with
      | nil => exact absurd rfl hrows
      | cons a l => rfl
    unfold write_to_bigquery
    simp [hempty, h]

/-- C8 amended witness: a concrete one-metric catalog whose insertion
reports one row error yields the hard error and a trace of exactly the
one failing batch. -/
theorem spec_c8_amended_witness :
    run_pipeline rdEx (fun _ _ => CallResult.yields [sEx] none)
        (fun _ => ["row error"]) "ns1" catEx =
      (.error ("Encountered errors while inserting rows: " ++
        toString ["row error"]),
        [[buildRow rdEx "cpu_vpa_recommendation" sEx]]) :=
  (spec_c8_amended (fun _ => ["row error"])
      [buildRow rdEx "cpu_vpa_recommendation" sEx] (by simp)).2.2
    rdEx (fun _ _ => CallResult.yields [sEx] none) "ns1"
    "cpu_vpa_recommendation" qEx [] rfl (by simp)

/-! ### C9 — empty fetch is skipped without aborting -/

/-- C9: when a metric's fetch produces no rows, `run_pipeline` does not
invoke the Row Sink for it (the sink-batch trace gains no entry) and
continues with the remaining catalog exactly as if the metric were not
present: the run over the rest is unaffected. -/
theorem spec_c9_empty_fetch_skip (rd : DateTime)
    (fetch : String → String → CallResult TimeSeries)
    (insert_rows_json : List Row → List String) (nspace metric : String)
    (query : QueryDescriptor) (rest : List (String × QueryDescriptor))
    (h : get_gke_metrics rd metric query nspace (fetch metric) = []) :
    run_pipeline rd fetch insert_rows_json nspace ((metric, query) :: rest) =
      run_pipeline rd fetch insert_rows_json nspace rest := by
  conv_lhs => rw [run_pipeline]
  rw [h]
  simp

/-- C9 witness: a fetch whose call fails (hence zero rows) leaves a
one-metric catalog behaving as the empty catalog — no sink call, clean
completion. -/
theorem spec_c9_empty_fetch_skip_witness :
    run_pipeline rdEx (fun _ _ => CallResult.failOnCall "unavailable")
        (fun _ => ["row error"]) "ns1" catEx =
      run_pipeline rdEx (fun _ _ => CallResult.failOnCall "unavailable")
        (fun _ => ["row error"]) "ns1" [] :=
  spec_c9_empty_fetch_skip rdEx (fun _ _ => CallResult.failOnCall "unavailable")
    (fun _ => ["row error"]) "ns1" "cpu_vpa_recommendation" qEx [] rfl

/-! ### C10 — the time-series filter string -/

/-- C10: the filter handed to the time-series query is exactly the
concatenation `'metric.type = "' + query.metric + '" AND
resource.label.namespace_name = ' + nspace`: the metric identifier is
wrapped in double quotes while the namespace value is appended bare at
the end, with no quoting applied to it. -/
theorem spec_c10_filter_concat (query : QueryDescriptor) (nspace : String) :
    buildFilter query nspace =
      "metric.type = " ++ "\"" ++ query.metric ++ "\"" ++
        " AND resource.label.namespace_name = " ++ nspace ∧
    (buildFilter query nspace).data =
      ("metric.type = \"").data ++ query.metric.data ++
        ("\" AND resource.label.namespace_name = ").data ++ nspace.data := by
  constructor
  · unfold buildFilter
    simp [String.append_assoc]
  · unfold buildFilter
    simp [String.data_append]

end MetricsExporter
